import Mathlib

/-!
Shallow embedding of the pdfium-render wrapper slice consisting of
`src/page_object.rs` and `src/font_glyph.rs`.

Foreign handles (FPDF_PAGEOBJECT, FPDF_PAGE, FPDF_FONT, FPDF_GLYPHPATH,
segment handles, annotation handles) are opaque native pointers; we model
them as natural numbers, with 0 playing the role of the null pointer.
The capability-bindings interface (the `PdfiumLibraryBindings` trait) is
modelled as a structure of Lean functions, so that a concrete record value
acts as a deterministic test double.  Native out-parameters are modelled as
extra components of the returned tuple.  C `float` values carry no
arithmetic in this slice, so they are modelled as rationals.
-/

/-- Tests whether a modelled foreign handle is the null pointer, mirroring
`handle.is_null()` on a raw pointer in the source. -/
def isNull (h : Nat) : Bool := h == 0

/-- Two's-complement narrowing cast from a C `int` to `u32`, mirroring the
Rust expression `value as u32`. -/
def c_int_as_u32 (v : Int) : Nat := (v % (2:Int)^32).toNat

/-- Page-object type code constant from the pdfium C API header
(`FPDF_PAGEOBJ_UNKNOWN`), re-exported by the bindgen module of the crate. -/
def FPDF_PAGEOBJ_UNKNOWN : Nat := 0

/-- Page-object type code constant `FPDF_PAGEOBJ_TEXT` from the pdfium C API. -/
def FPDF_PAGEOBJ_TEXT : Nat := 1

/-- Page-object type code constant `FPDF_PAGEOBJ_PATH` from the pdfium C API. -/
def FPDF_PAGEOBJ_PATH : Nat := 2

/-- Page-object type code constant `FPDF_PAGEOBJ_IMAGE` from the pdfium C API. -/
def FPDF_PAGEOBJ_IMAGE : Nat := 3

/-- Page-object type code constant `FPDF_PAGEOBJ_SHADING` from the pdfium C API. -/
def FPDF_PAGEOBJ_SHADING : Nat := 4

/-- Page-object type code constant `FPDF_PAGEOBJ_FORM` from the pdfium C API. -/
def FPDF_PAGEOBJ_FORM : Nat := 5

/-- Line-join constant `FPDF_LINEJOIN_MITER` from the pdfium C API. -/
def FPDF_LINEJOIN_MITER : Nat := 0

/-- Line-join constant `FPDF_LINEJOIN_ROUND` from the pdfium C API. -/
def FPDF_LINEJOIN_ROUND : Nat := 1

/-- Line-join constant `FPDF_LINEJOIN_BEVEL` from the pdfium C API. -/
def FPDF_LINEJOIN_BEVEL : Nat := 2

/-- Line-cap constant `FPDF_LINECAP_BUTT` from the pdfium C API. -/
def FPDF_LINECAP_BUTT : Nat := 0

/-- Line-cap constant `FPDF_LINECAP_ROUND` from the pdfium C API. -/
def FPDF_LINECAP_ROUND : Nat := 1

/-- Line-cap constant `FPDF_LINECAP_PROJECTING_SQUARE` from the pdfium C API. -/
def FPDF_LINECAP_PROJECTING_SQUARE : Nat := 2

/-- Modelled from the spec: the internal error codes of `PdfiumInternalError`
(defined in `error.rs`, which is not part of the provided sources).  The
source slice names only the `Unknown` variant explicitly; the remaining
variants model the small fixed set of diagnosable native error codes that
the last-error query can report (spec section 6). -/
inductive PdfiumInternalError where
  | Unknown
  | FileError
  | FormatError
  | PasswordError
  | SecurityError
  | PageError
deriving DecidableEq

/-- Modelled from the spec: the error taxonomy of `PdfiumError` (defined in
`error.rs`, which is not part of the provided sources).  Only the variants
named by the two provided source files are modelled: the native-internal
error wrapper, the function-indicated failure, the unrecognized
page-object-type conversion error, and the color-channel conversion error
(spec section 7). -/
inductive PdfiumError where
  | PdfiumLibraryInternalError (err : PdfiumInternalError)
  | PdfiumFunctionReturnValueIndicatedFailure
  | UnknownPdfPageObjectType
  | UnableToConvertPdfiumColorValueToRustu8
deriving DecidableEq

/-- Modelled from the spec: the taxonomy bucket test for a type/enum
conversion error (spec section 7): a native value failed to map onto a
recognized enumerated constant or into the 8-bit channel range.  The
native-internal wrapper and the bare function-indicated failure fall in
other buckets of the taxonomy. -/
def is_type_enum_conversion_error : PdfiumError → Bool
  | PdfiumError.UnknownPdfPageObjectType => true
  | PdfiumError.UnableToConvertPdfiumColorValueToRustu8 => true
  | _ => false

/-- Rust `Result::unwrap_or`, used by `PdfPageObject::from_pdfium`. -/
def Except.unwrap_or {ε α : Type} (e : Except ε α) (d : α) : α :=
  match e with
  | Except.ok a => a
  | Except.error _ => d

/-- The type of a single `PdfPageObject` (the `PdfPageObjectType` enum of
`page_object.rs`). -/
inductive PdfPageObjectType where
  | Unsupported
  | Text
  | Path
  | Image
  | Shading
  | FormFragment
deriving DecidableEq

/-- `PdfPageObjectType::from_pdfium` from `page_object.rs`: maps a native
`u32` type code onto the closed kind set, failing with
`UnknownPdfPageObjectType` on an unrecognized code. -/
def PdfPageObjectType.from_pdfium (value : Nat) : Except PdfiumError PdfPageObjectType :=
  if value = FPDF_PAGEOBJ_UNKNOWN then Except.ok PdfPageObjectType.Unsupported
  else if value = FPDF_PAGEOBJ_TEXT then Except.ok PdfPageObjectType.Text
  else if value = FPDF_PAGEOBJ_PATH then Except.ok PdfPageObjectType.Path
  else if value = FPDF_PAGEOBJ_IMAGE then Except.ok PdfPageObjectType.Image
  else if value = FPDF_PAGEOBJ_SHADING then Except.ok PdfPageObjectType.Shading
  else if value = FPDF_PAGEOBJ_FORM then Except.ok PdfPageObjectType.FormFragment
  else Except.error PdfiumError.UnknownPdfPageObjectType

/-- The line-join style enum `PdfPageObjectLineJoin` of `page_object.rs`. -/
inductive PdfPageObjectLineJoin where
  | Miter
  | Round
  | Bevel
deriving DecidableEq

/-- `PdfPageObjectLineJoin::from_pdfium` from `page_object.rs`: the argument
is a C `int`, matched against the native constants after a `as u32` cast. -/
def PdfPageObjectLineJoin.from_pdfium (value : Int) : Option PdfPageObjectLineJoin :=
  if c_int_as_u32 value = FPDF_LINEJOIN_MITER then some PdfPageObjectLineJoin.Miter
  else if c_int_as_u32 value = FPDF_LINEJOIN_ROUND then some PdfPageObjectLineJoin.Round
  else if c_int_as_u32 value = FPDF_LINEJOIN_BEVEL then some PdfPageObjectLineJoin.Bevel
  else none

/-- `PdfPageObjectLineJoin::as_pdfium` from `page_object.rs`. -/
def PdfPageObjectLineJoin.as_pdfium : PdfPageObjectLineJoin → Nat
  | PdfPageObjectLineJoin.Miter => FPDF_LINEJOIN_MITER
  | PdfPageObjectLineJoin.Round => FPDF_LINEJOIN_ROUND
  | PdfPageObjectLineJoin.Bevel => FPDF_LINEJOIN_BEVEL

/-- The line-cap style enum `PdfPageObjectLineCap` of `page_object.rs`. -/
inductive PdfPageObjectLineCap where
  | Butt
  | Round
  | Square
deriving DecidableEq

/-- `PdfPageObjectLineCap::from_pdfium` from `page_object.rs`. -/
def PdfPageObjectLineCap.from_pdfium (value : Int) : Option PdfPageObjectLineCap :=
  if c_int_as_u32 value = FPDF_LINECAP_BUTT then some PdfPageObjectLineCap.Butt
  else if c_int_as_u32 value = FPDF_LINECAP_ROUND then some PdfPageObjectLineCap.Round
  else if c_int_as_u32 value = FPDF_LINECAP_PROJECTING_SQUARE then some PdfPageObjectLineCap.Square
  else none

/-- `PdfPageObjectLineCap::as_pdfium` from `page_object.rs`. -/
def PdfPageObjectLineCap.as_pdfium : PdfPageObjectLineCap → Nat
  | PdfPageObjectLineCap.Butt => FPDF_LINECAP_BUTT
  | PdfPageObjectLineCap.Round => FPDF_LINECAP_ROUND
  | PdfPageObjectLineCap.Square => FPDF_LINECAP_PROJECTING_SQUARE

/-- Modelled from the spec: the state shared by the six concrete page-object
structs (`PdfPageTextObject` and friends, defined in source files not
provided): the wrapped foreign object handle, the optional owning page and
annotation handles, and the per-object ownership flag of spec section 3
(true when the handle lifetime is managed by a containing collection). -/
structure PdfPageObjectInner where
  object_handle : Nat
  page_handle : Option Nat
  annotation_handle : Option Nat
  is_object_memory_owned_by_container : Bool
deriving DecidableEq

/-- Modelled from the spec: each concrete page-object constructor
(`PdfPageTextObject::from_pdfium` and friends) wraps the handles it is
given; per spec section 4.3 an object obtained by enumerating a page or
annotation starts container-owned, one wrapped without a container starts
independently owned. -/
def PdfPageObjectInner.from_pdfium (object_handle : Nat) (page_handle : Option Nat)
    (annotation_handle : Option Nat) : PdfPageObjectInner :=
  ⟨object_handle, page_handle, annotation_handle,
    page_handle.isSome || annotation_handle.isSome⟩

/-- The tagged union `PdfPageObject` of `page_object.rs`, one variant per
page-object kind. -/
inductive PdfPageObject where
  | Text (object : PdfPageObjectInner)
  | Path (object : PdfPageObjectInner)
  | Image (object : PdfPageObjectInner)
  | Shading (object : PdfPageObjectInner)
  | FormFragment (object : PdfPageObjectInner)
  | Unsupported (object : PdfPageObjectInner)
deriving DecidableEq

/-- The shared state of the concrete variant held by a `PdfPageObject`
(the dispatch of `unwrap_as_trait` in `page_object.rs`, which forwards to
the concrete variant in every arm). -/
def PdfPageObject.inner : PdfPageObject → PdfPageObjectInner
  | PdfPageObject.Text object => object
  | PdfPageObject.Path object => object
  | PdfPageObject.Image object => object
  | PdfPageObject.Shading object => object
  | PdfPageObject.FormFragment object => object
  | PdfPageObject.Unsupported object => object

/-- `PdfPageObjectPrivate::get_object_handle` as dispatched by the
`PdfPageObject` impl in `page_object.rs`. -/
def PdfPageObject.get_object_handle (obj : PdfPageObject) : Nat :=
  obj.inner.object_handle

/-- `PdfPageObjectPrivate::is_object_memory_owned_by_container` as
dispatched by the `PdfPageObject` impl in `page_object.rs`. -/
def PdfPageObject.is_object_memory_owned_by_container (obj : PdfPageObject) : Bool :=
  obj.inner.is_object_memory_owned_by_container

/-- Modelled from the spec: the `PdfPoints` unit wrapper of `page.rs` (not
part of the provided sources): a floating-point length in points, modelled
as a rational since this slice performs no arithmetic on it. -/
structure PdfPoints where
  value : ℚ
deriving DecidableEq

/-- `PdfPoints::ZERO`, the zero-length constant. -/
def PdfPoints.ZERO : PdfPoints := ⟨0⟩

/-- Modelled from the spec: the `PdfRect` axis-aligned rectangle of
`page.rs` (not part of the provided sources), with the four edge
coordinates in points. -/
structure PdfRect where
  bottom : ℚ
  left : ℚ
  top : ℚ
  right : ℚ
deriving DecidableEq

/-- Modelled from the spec: `PdfRect::is_inside`, true when this rectangle
lies entirely within the given rectangle. -/
def PdfRect.is_inside (a r : PdfRect) : Bool :=
  decide (r.left ≤ a.left ∧ a.right ≤ r.right ∧ r.bottom ≤ a.bottom ∧ a.top ≤ r.top)

/-- Modelled from the spec: `PdfRect::does_overlap`, true when this
rectangle lies at least partially within the given rectangle. -/
def PdfRect.does_overlap (a r : PdfRect) : Bool :=
  decide (a.left < r.right ∧ r.left < a.right ∧ a.bottom < r.top ∧ r.bottom < a.top)

/-- Modelled from the spec: the capability-bindings interface
(`PdfiumLibraryBindings`, defined in `bindings.rs`, not part of the
provided sources), restricted to the native entry points invoked by the two
provided source files.  Out-parameters are returned as tuple components;
`FPDF_BOOL` results are C ints.  `get_pdfium_last_error` is the out-of-band
last-error query of spec section 6, reporting either a diagnosable internal
error code or none. -/
structure PdfiumLibraryBindings where
  FPDFPageObj_GetType : Nat → Int
  FPDFPageObj_GetLineJoin : Nat → Int
  FPDFPageObj_GetLineCap : Nat → Int
  FPDFPageObj_GetFillColor : Nat → Int × Nat × Nat × Nat × Nat
  FPDFPageObj_GetStrokeColor : Nat → Int × Nat × Nat × Nat × Nat
  FPDFFont_GetGlyphWidth : Nat → Nat → ℚ → Int × ℚ
  FPDFFont_GetGlyphPath : Nat → Nat → ℚ → Nat
  FPDFGlyphPath_CountGlyphSegments : Nat → Int
  FPDFGlyphPath_GetGlyphPathSegment : Nat → Int → Nat
  bounds_impl : Nat → Except PdfiumError PdfRect
  get_pdfium_last_error : Option PdfiumInternalError

/-- Modelled from the spec: `PdfiumLibraryBindings::is_true`, the helper of
`bindings.rs` converting a native `FPDF_BOOL` (a C int) to a boolean:
nonzero means true. -/
def is_true (v : Int) : Bool := v != 0

/-- `PdfPageObject::from_pdfium` from `page_object.rs`: queries the native
type code of the freshly obtained handle, classifies it with
`PdfPageObjectType::from_pdfium` defaulting to `Unsupported` via
`unwrap_or`, and wraps the handle in the matching variant. -/
def PdfPageObject.from_pdfium (object_handle : Nat) (page_handle : Option Nat)
    (annotation_handle : Option Nat) (bindings : PdfiumLibraryBindings) : PdfPageObject :=
  match (PdfPageObjectType.from_pdfium
      (c_int_as_u32 (bindings.FPDFPageObj_GetType object_handle))).unwrap_or
      PdfPageObjectType.Unsupported with
  | PdfPageObjectType.Unsupported =>
      PdfPageObject.Unsupported
        (PdfPageObjectInner.from_pdfium object_handle page_handle annotation_handle)
  | PdfPageObjectType.Text =>
      PdfPageObject.Text
        (PdfPageObjectInner.from_pdfium object_handle page_handle annotation_handle)
  | PdfPageObjectType.Path =>
      PdfPageObject.Path
        (PdfPageObjectInner.from_pdfium object_handle page_handle annotation_handle)
  | PdfPageObjectType.Image =>
      PdfPageObject.Image
        (PdfPageObjectInner.from_pdfium object_handle page_handle annotation_handle)
  | PdfPageObjectType.Shading =>
      PdfPageObject.Shading
        (PdfPageObjectInner.from_pdfium object_handle page_handle annotation_handle)
  | PdfPageObjectType.FormFragment =>
      PdfPageObject.FormFragment
        (PdfPageObjectInner.from_pdfium object_handle page_handle annotation_handle)

/-- `PdfPageObject::object_type` from `page_object.rs`. -/
def PdfPageObject.object_type : PdfPageObject → PdfPageObjectType
  | PdfPageObject.Text _ => PdfPageObjectType.Text
  | PdfPageObject.Path _ => PdfPageObjectType.Path
  | PdfPageObject.Image _ => PdfPageObjectType.Image
  | PdfPageObject.Shading _ => PdfPageObjectType.Shading
  | PdfPageObject.FormFragment _ => PdfPageObjectType.FormFragment
  | PdfPageObject.Unsupported _ => PdfPageObjectType.Unsupported

/-- The expected kind mapping, written from the words of the spec: each of
the six recognized native codes yields the corresponding kind, and every
other code yields `Unsupported` rather than an error.  Used to compare the
source-derived constructor against the spec sentence. -/
def spec_expected_kind (code : Nat) : PdfPageObjectType :=
  if code = FPDF_PAGEOBJ_UNKNOWN then PdfPageObjectType.Unsupported
  else if code = FPDF_PAGEOBJ_TEXT then PdfPageObjectType.Text
  else if code = FPDF_PAGEOBJ_PATH then PdfPageObjectType.Path
  else if code = FPDF_PAGEOBJ_IMAGE then PdfPageObjectType.Image
  else if code = FPDF_PAGEOBJ_SHADING then PdfPageObjectType.Shading
  else if code = FPDF_PAGEOBJ_FORM then PdfPageObjectType.FormFragment
  else PdfPageObjectType.Unsupported

/-- `PdfPageObject::as_text_object` from `page_object.rs` (the mutable
variant `as_text_object_mut` narrows by the identical match and is not
modelled separately). -/
def PdfPageObject.as_text_object : PdfPageObject → Option PdfPageObjectInner
  | PdfPageObject.Text object => some object
  | _ => none

/-- `PdfPageObject::as_path_object` from `page_object.rs`. -/
def PdfPageObject.as_path_object : PdfPageObject → Option PdfPageObjectInner
  | PdfPageObject.Path object => some object
  | _ => none

/-- `PdfPageObject::as_image_object` from `page_object.rs`. -/
def PdfPageObject.as_image_object : PdfPageObject → Option PdfPageObjectInner
  | PdfPageObject.Image object => some object
  | _ => none

/-- `PdfPageObject::as_shading_object` from `page_object.rs`. -/
def PdfPageObject.as_shading_object : PdfPageObject → Option PdfPageObjectInner
  | PdfPageObject.Shading object => some object
  | _ => none

/-- `PdfPageObject::as_form_fragment_object` from `page_object.rs`. -/
def PdfPageObject.as_form_fragment_object : PdfPageObject → Option PdfPageObjectInner
  | PdfPageObject.FormFragment object => some object
  | _ => none

/-- The number of narrowing accessors of `page_object.rs` that return a
value on the given object.  The source defines exactly five such accessors
(text, path, image, shading, form fragment); no accessor narrows to the
`Unsupported` variant. -/
def narrowing_some_count (obj : PdfPageObject) : Nat :=
  [obj.as_text_object.isSome, obj.as_path_object.isSome, obj.as_image_object.isSome,
    obj.as_shading_object.isSome, obj.as_form_fragment_object.isSome].count true

/-- The native calls observable through the bindings seam during
destruction. -/
inductive NativeCall where
  | FPDFPageObj_Destroy (handle : Nat)
deriving DecidableEq

/-- The `Drop` impl for `PdfPageObject` in `page_object.rs`, modelled as the
trace of native release calls issued during destruction: the handle is
released through `FPDFPageObj_Destroy` exactly when the object memory is
not owned by a container. -/
def PdfPageObject.drop_native_calls (obj : PdfPageObject) : List NativeCall :=
  if !obj.is_object_memory_owned_by_container then
    [NativeCall.FPDFPageObj_Destroy obj.get_object_handle]
  else
    []

/-- Modelled from the spec: the `PdfColor` value of `color.rs` (not part of
the provided sources): four independent 8-bit channels.  Channel values are
produced only through `u8_try_from`, so they lie below 256. -/
structure PdfColor where
  red : Nat
  green : Nat
  blue : Nat
  alpha : Nat
deriving DecidableEq

/-- Rust `TryInto::try_into` from a C `uint` to `u8`, with the failure
already mapped onto the color conversion error exactly as the `map_err`
call sites of `page_object.rs` do. -/
def u8_try_from (n : Nat) : Except PdfiumError Nat :=
  if n < 256 then Except.ok n
  else Except.error PdfiumError.UnableToConvertPdfiumColorValueToRustu8

/-- The blanket `PdfPageObjectCommon::fill_color` impl of `page_object.rs`:
calls the native fill-color query, fails with the function-indicated
failure when the native boolean is false, and otherwise converts the four
out-parameter channels to 8-bit values in order. -/
def fill_color (b : PdfiumLibraryBindings) (handle : Nat) : Except PdfiumError PdfColor :=
  let result := b.FPDFPageObj_GetFillColor handle
  if is_true result.1 then
    match u8_try_from result.2.1 with
    | Except.error e => Except.error e
    | Except.ok red =>
      match u8_try_from result.2.2.1 with
      | Except.error e => Except.error e
      | Except.ok green =>
        match u8_try_from result.2.2.2.1 with
        | Except.error e => Except.error e
        | Except.ok blue =>
          match u8_try_from result.2.2.2.2 with
          | Except.error e => Except.error e
          | Except.ok alpha => Except.ok ⟨red, green, blue, alpha⟩
  else
    Except.error PdfiumError.PdfiumFunctionReturnValueIndicatedFailure

/-- The blanket `PdfPageObjectCommon::stroke_color` impl of
`page_object.rs`, identical in shape to `fill_color` but against the native
stroke-color query. -/
def stroke_color (b : PdfiumLibraryBindings) (handle : Nat) : Except PdfiumError PdfColor :=
  let result := b.FPDFPageObj_GetStrokeColor handle
  if is_true result.1 then
    match u8_try_from result.2.1 with
    | Except.error e => Except.error e
    | Except.ok red =>
      match u8_try_from result.2.2.1 with
      | Except.error e => Except.error e
      | Except.ok green =>
        match u8_try_from result.2.2.2.1 with
        | Except.error e => Except.error e
        | Except.ok blue =>
          match u8_try_from result.2.2.2.2 with
          | Except.error e => Except.error e
          | Except.ok alpha => Except.ok ⟨red, green, blue, alpha⟩
  else
    Except.error PdfiumError.PdfiumFunctionReturnValueIndicatedFailure

/-- The blanket `PdfPageObjectCommon::line_join` impl of `page_object.rs`:
classifies the native line-join integer, mapping an unrecognized value onto
the function-indicated failure via `ok_or`. -/
def line_join (b : PdfiumLibraryBindings) (handle : Nat) : Except PdfiumError PdfPageObjectLineJoin :=
  match PdfPageObjectLineJoin.from_pdfium (b.FPDFPageObj_GetLineJoin handle) with
  | some v => Except.ok v
  | none => Except.error PdfiumError.PdfiumFunctionReturnValueIndicatedFailure

/-- The blanket `PdfPageObjectCommon::line_cap` impl of `page_object.rs`. -/
def line_cap (b : PdfiumLibraryBindings) (handle : Nat) : Except PdfiumError PdfPageObjectLineCap :=
  match PdfPageObjectLineCap.from_pdfium (b.FPDFPageObj_GetLineCap handle) with
  | some v => Except.ok v
  | none => Except.error PdfiumError.PdfiumFunctionReturnValueIndicatedFailure

/-- The blanket `PdfPageObjectCommon::is_inside_rect` impl of
`page_object.rs`: `self.bounds().map(..is_inside..).unwrap_or(false)`,
where `bounds` delegates to the concrete variant through the bindings
seam. -/
def is_inside_rect (b : PdfiumLibraryBindings) (obj : PdfPageObject) (rect : PdfRect) : Bool :=
  match b.bounds_impl obj.get_object_handle with
  | Except.ok bounds => bounds.is_inside rect
  | Except.error _ => false

/-- The blanket `PdfPageObjectCommon::does_overlap_rect` impl of
`page_object.rs`: `self.bounds().map(..does_overlap..).unwrap_or(false)`. -/
def does_overlap_rect (b : PdfiumLibraryBindings) (obj : PdfPageObject) (rect : PdfRect) : Bool :=
  match b.bounds_impl obj.get_object_handle with
  | Except.ok bounds => bounds.does_overlap rect
  | Except.error _ => false

/-- The `PdfFontGlyph` struct of `font_glyph.rs`: a font handle plus the
glyph index within the font. -/
structure PdfFontGlyph where
  handle : Nat
  index : Nat
deriving DecidableEq

/-- The `PdfFontGlyphPath` struct of `font_glyph.rs`, wrapping a native
glyph-path handle (its `from_pdfium` constructor stores the handle). -/
structure PdfFontGlyphPath where
  handle : Nat
deriving DecidableEq

/-- The `PdfPathSegment` struct of `path_segment.rs`, wrapping a native
segment handle (its `from_pdfium` constructor stores the handle). -/
structure PdfPathSegment where
  handle : Nat
deriving DecidableEq

/-- `PdfFontGlyph::width_at_font_size` from `font_glyph.rs`: calls the
native glyph-width query with a zero-initialized out-parameter and returns
the reported width on success, or the zero length on failure. -/
def PdfFontGlyph.width_at_font_size (g : PdfFontGlyph) (b : PdfiumLibraryBindings)
    (size : PdfPoints) : PdfPoints :=
  let result := b.FPDFFont_GetGlyphWidth g.handle g.index size.value
  if is_true result.1 then
    ⟨result.2⟩
  else
    PdfPoints.ZERO

/-- `PdfFontGlyph::segments_at_font_size` from `font_glyph.rs`: obtains the
native glyph-path handle; a null handle is a failure carrying the reported
last error, or the `Unknown` internal error when the last-error query
reports none; a non-null handle wraps into a `PdfFontGlyphPath`. -/
def PdfFontGlyph.segments_at_font_size (g : PdfFontGlyph) (b : PdfiumLibraryBindings)
    (size : PdfPoints) : Except PdfiumError PdfFontGlyphPath :=
  let handle := b.FPDFFont_GetGlyphPath g.handle g.index size.value
  if isNull handle then
    match b.get_pdfium_last_error with
    | some error => Except.error (PdfiumError.PdfiumLibraryInternalError error)
    | none => Except.error (PdfiumError.PdfiumLibraryInternalError PdfiumInternalError.Unknown)
  else
    Except.ok ⟨handle⟩

/-- Modelled from the spec: the segment index type `PdfPathSegmentIndex` of
`path_segments.rs` (not part of the provided sources) is an unsigned 16-bit
index; this is the checked Rust `try_into` conversion from the C `int`
segment count into it. -/
def segment_index_try_from (v : Int) : Option Nat :=
  if 0 ≤ v ∧ v < 65536 then some v.toNat else none

/-- The `PdfPathSegments::len` impl for `PdfFontGlyphPath` in
`font_glyph.rs`: the native segment count, converted into the segment index
type with `unwrap_or(0)` absorbing any conversion failure. -/
def PdfFontGlyphPath.len (p : PdfFontGlyphPath) (b : PdfiumLibraryBindings) : Nat :=
  (segment_index_try_from (b.FPDFGlyphPath_CountGlyphSegments p.handle)).getD 0

/-- The `PdfPathSegments::get` impl for `PdfFontGlyphPath` in
`font_glyph.rs`: obtains the native segment handle at the given index
(cast to a C `int`); a null handle is a failure with the same last-error
taxonomy as `segments_at_font_size`; a non-null handle wraps into a
`PdfPathSegment`. -/
def PdfFontGlyphPath.get (p : PdfFontGlyphPath) (b : PdfiumLibraryBindings)
    (index : Nat) : Except PdfiumError PdfPathSegment :=
  let handle := b.FPDFGlyphPath_GetGlyphPathSegment p.handle (Int.ofNat index)
  if isNull handle then
    match b.get_pdfium_last_error with
    | some error => Except.error (PdfiumError.PdfiumLibraryInternalError error)
    | none => Except.error (PdfiumError.PdfiumLibraryInternalError PdfiumInternalError.Unknown)
  else
    Except.ok ⟨handle⟩

/-- Modelled from the spec: the 6-coefficient 2D affine matrix `PdfMatrix`
(defined outside the provided sources), with coefficients modelled as
rationals. -/
structure PdfMatrix where
  a : ℚ
  b : ℚ
  c : ℚ
  d : ℚ
  e : ℚ
  f : ℚ
deriving DecidableEq

/-- Modelled from the spec: the bindings state backing the native matrix
query and setter used by the transform getter/setter macros (defined
outside the provided sources): the current matrix of every page-object
handle, plus the per-handle success of the native matrix read. -/
structure MatrixBindings where
  matrices : Nat → PdfMatrix
  get_matrix_ok : Nat → Bool

/-- Modelled from the spec: `matrix()` as produced by the transform getter
macro: reads the 6 coefficients of the object through the native matrix
query, failing with the function-indicated failure when the native call
reports failure. -/
def get_matrix (mb : MatrixBindings) (handle : Nat) : Except PdfiumError PdfMatrix :=
  if mb.get_matrix_ok handle then Except.ok (mb.matrices handle)
  else Except.error PdfiumError.PdfiumFunctionReturnValueIndicatedFailure

/-- Modelled from the spec: `set_matrix` as produced by the transform
setter macro: writes the given 6 coefficients wholesale as the matrix of
the object, leaving every other handle untouched. -/
def set_matrix (mb : MatrixBindings) (handle : Nat) (m : PdfMatrix) : Nat → PdfMatrix :=
  fun k => if k = handle then m else mb.matrices k

/-- The blanket `PdfPageObjectCommon::transform_from` impl of
`page_object.rs`: `self.set_matrix(other.matrix()?)` — reads the source
matrix, propagating its failure, then writes it wholesale onto the
destination; the result is the updated matrix store. -/
def transform_from (mb : MatrixBindings) (dst src : PdfPageObject) :
    Except PdfiumError (Nat → PdfMatrix) :=
  match get_matrix mb src.get_object_handle with
  | Except.ok m => Except.ok (set_matrix mb dst.get_object_handle m)
  | Except.error e => Except.error e

/-- Helper for C2: the source classifier with its `unwrap_or(Unsupported)`
default agrees with the kind mapping written from the spec words. -/
theorem unwrap_kind_eq_spec (code : Nat) :
    (PdfPageObjectType.from_pdfium code).unwrap_or PdfPageObjectType.Unsupported =
      spec_expected_kind code := by
  unfold PdfPageObjectType.from_pdfium spec_expected_kind Except.unwrap_or
  split_ifs <;> rfl

/-- Helper for C2: the variant built by `PdfPageObject::from_pdfium` has the
object type computed by the classifier with its `Unsupported` default. -/
theorem from_pdfium_yields_kind (b : PdfiumLibraryBindings) (oh : Nat)
    (ph ah : Option Nat) :
    (PdfPageObject.from_pdfium oh ph ah b).object_type =
      (PdfPageObjectType.from_pdfium
        (c_int_as_u32 (b.FPDFPageObj_GetType oh))).unwrap_or
        PdfPageObjectType.Unsupported := by
  unfold PdfPageObject.from_pdfium
  generalize (PdfPageObjectType.from_pdfium
    (c_int_as_u32 (b.FPDFPageObj_GetType oh))).unwrap_or
    PdfPageObjectType.Unsupported = k
  cases k <;> rfl

/-- C1: destruction of a `PdfPageObject` issues the native release call
`FPDFPageObj_Destroy` on the object handle exactly once when the ownership
flag `is_object_memory_owned_by_container` is false, and never issues it
when the flag is true. -/
theorem drop_releases_iff_not_container_owned (obj : PdfPageObject) :
    (PdfPageObject.drop_native_calls obj).count
        (NativeCall.FPDFPageObj_Destroy obj.get_object_handle) =
      (if obj.is_object_memory_owned_by_container then 0 else 1) := by
  cases hf : obj.is_object_memory_owned_by_container <;>
    simp [PdfPageObject.drop_native_calls, hf]

/-- C2: for every native type code reported through the bindings,
`PdfPageObject::from_pdfium` yields the variant whose `object_type` is the
expected kind for each of the six recognized codes, and the `Unsupported`
variant for every other code, without ever returning an error (the
constructor is total). -/
theorem from_pdfium_object_type_matches_code (b : PdfiumLibraryBindings)
    (oh : Nat) (ph ah : Option Nat) :
    (PdfPageObject.from_pdfium oh ph ah b).object_type =
      spec_expected_kind (c_int_as_u32 (b.FPDFPageObj_GetType oh)) := by
  rw [from_pdfium_yields_kind, unwrap_kind_eq_spec]

/-- C7: converting a line-join or line-cap style to its native constant and
back recovers the original style: the mapping between the closed enum sets
and the native integer constants is a round trip. -/
theorem line_join_line_cap_round_trip :
    (∀ v : PdfPageObjectLineJoin,
        PdfPageObjectLineJoin.from_pdfium (Int.ofNat v.as_pdfium) = some v) ∧
    (∀ v : PdfPageObjectLineCap,
        PdfPageObjectLineCap.from_pdfium (Int.ofNat v.as_pdfium) = some v) := by
  constructor <;> intro v <;> cases v <;> decide

/-- C3: for the glyph path query and the positional segment accessor, a
null native handle yields the typed internal-error failure carrying the
reported last error when one is set, and the `Unknown` internal-error
variant when the last-error query reports none; a non-null handle yields
success wrapping that handle. -/
theorem glyph_path_null_handle_error_taxonomy (b : PdfiumLibraryBindings)
    (g : PdfFontGlyph) (size : PdfPoints) (p : PdfFontGlyphPath) (i : Nat) :
    (g.segments_at_font_size b size =
      if isNull (b.FPDFFont_GetGlyphPath g.handle g.index size.value) then
        Except.error (PdfiumError.PdfiumLibraryInternalError
          (b.get_pdfium_last_error.getD PdfiumInternalError.Unknown))
      else
        Except.ok ⟨b.FPDFFont_GetGlyphPath g.handle g.index size.value⟩) ∧
    (p.get b i =
      if isNull (b.FPDFGlyphPath_GetGlyphPathSegment p.handle (Int.ofNat i)) then
        Except.error (PdfiumError.PdfiumLibraryInternalError
          (b.get_pdfium_last_error.getD PdfiumInternalError.Unknown))
      else
        Except.ok ⟨b.FPDFGlyphPath_GetGlyphPathSegment p.handle (Int.ofNat i)⟩) := by
  refine ⟨?_, ?_⟩
  · simp only [PdfFontGlyph.segments_at_font_size]
    cases hb : b.get_pdfium_last_error <;> simp [hb]
  · simp only [PdfFontGlyphPath.get]
    cases hb : b.get_pdfium_last_error <;> simp [hb]

/-- C4: the glyph width query returns exactly zero points whenever the
native glyph-width call signals failure, propagating no error (the result
type carries no failure), and returns the out-parameter width when the
native call succeeds. -/
theorem width_at_font_size_zero_on_failure (b : PdfiumLibraryBindings)
    (g : PdfFontGlyph) (size : PdfPoints) :
    g.width_at_font_size b size =
      if is_true (b.FPDFFont_GetGlyphWidth g.handle g.index size.value).1 then
        ⟨(b.FPDFFont_GetGlyphWidth g.handle g.index size.value).2⟩
      else
        PdfPoints.mk 0 := by
  simp only [PdfFontGlyph.width_at_font_size, PdfPoints.ZERO]

/-- C9: the glyph-path length query is a total function by construction;
it returns the native segment count exactly when that count fits the
segment index type, and 0 whenever the conversion fails, in particular for
every negative native count. -/
theorem glyph_path_len_total (b : PdfiumLibraryBindings) (p : PdfFontGlyphPath) :
    p.len b =
      if 0 ≤ b.FPDFGlyphPath_CountGlyphSegments p.handle ∧
          b.FPDFGlyphPath_CountGlyphSegments p.handle < 65536 then
        (b.FPDFGlyphPath_CountGlyphSegments p.handle).toNat
      else 0 := by
  unfold PdfFontGlyphPath.len segment_index_try_from
  split <;> rfl

/-- C5 counterexample: on a concrete object of the `Unsupported` variant,
none of the narrowing accessors defined by the source returns a value, so
it is false that exactly one of the typed-narrowing accessors returns a
value for every object: the source defines five narrowing accessors, none
of which narrows to the `Unsupported` variant. -/
theorem narrowing_unsupported_counterexample :
    narrowing_some_count (PdfPageObject.Unsupported ⟨1, none, none, false⟩) = 0 ∧
    narrowing_some_count (PdfPageObject.Unsupported ⟨1, none, none, false⟩) ≠ 1 := by
  decide

/-- C5 (amended): narrowing is total (never panics by construction); each
of the five narrowing accessors defined by the source returns a value
exactly when the object kind matches it, so for every object of a
supported kind exactly one accessor returns a value and the others return
nothing, while for an `Unsupported` object every narrowing accessor
returns nothing. -/
theorem narrowing_mutually_exclusive_amended (obj : PdfPageObject) :
    narrowing_some_count obj =
      (if obj.object_type = PdfPageObjectType.Unsupported then 0 else 1) ∧
    obj.as_text_object.isSome = decide (obj.object_type = PdfPageObjectType.Text) ∧
    obj.as_path_object.isSome = decide (obj.object_type = PdfPageObjectType.Path) ∧
    obj.as_image_object.isSome = decide (obj.object_type = PdfPageObjectType.Image) ∧
    obj.as_shading_object.isSome = decide (obj.object_type = PdfPageObjectType.Shading) ∧
    obj.as_form_fragment_object.isSome =
      decide (obj.object_type = PdfPageObjectType.FormFragment) := by
  cases obj <;> exact ⟨rfl, rfl, rfl, rfl, rfl, rfl⟩

/-- C6: whenever `transform_from` succeeds, the resulting matrix store
assigns the destination object exactly the matrix previously held by the
source object — the source matrix is applied wholesale, replacing any
transform previously applied to the destination rather than composing
with it. -/
theorem transform_from_replaces_matrix (mb : MatrixBindings)
    (dst src : PdfPageObject) (σ : Nat → PdfMatrix)
    (h : transform_from mb dst src = Except.ok σ) :
    σ dst.get_object_handle = mb.matrices src.get_object_handle := by
  by_cases hok : mb.get_matrix_ok src.get_object_handle = true
  · simp only [transform_from, get_matrix, hok, if_true, Except.ok.injEq] at h
    rw [← h]
    simp [set_matrix]
  · simp [transform_from, get_matrix, hok] at h

/-- A concrete matrix store for the C6 witness: handle k holds a matrix
whose first coefficient is k, and every native matrix read succeeds. -/
def transform_demo_bindings : MatrixBindings :=
  ⟨fun k => ⟨k, 0, 0, 1, 0, 0⟩, fun _ => true⟩

/-- A concrete destination object (handle 2) for the C6 witness. -/
def transform_demo_dst : PdfPageObject := PdfPageObject.Path ⟨2, none, none, false⟩

/-- A concrete source object (handle 1) for the C6 witness. -/
def transform_demo_src : PdfPageObject := PdfPageObject.Path ⟨1, none, none, false⟩

/-- The matrix store produced by the C6 witness run. -/
def transform_demo_result : Nat → PdfMatrix :=
  set_matrix transform_demo_bindings 2 (transform_demo_bindings.matrices 1)

/-- C6 witness: running `transform_from` on the concrete store with source
handle 1 and destination handle 2 leaves the destination holding the
matrix of the source. -/
theorem transform_from_replaces_matrix_witness :
    transform_demo_result 2 = transform_demo_bindings.matrices 1 :=
  transform_from_replaces_matrix transform_demo_bindings transform_demo_dst
    transform_demo_src transform_demo_result rfl

/-- A concrete bindings double for the C8 theorems: the line-join query
reports the unrecognized value 7, the line-cap query the unrecognized
value 9, and the fill and stroke color queries succeed but report a red
channel outside the 8-bit range. -/
def style_demo_bindings : PdfiumLibraryBindings :=
  ⟨fun _ => 0, fun _ => 7, fun _ => 9,
   fun _ => (1, 999, 0, 0, 0), fun _ => (1, 300, 0, 0, 0),
   fun _ _ _ => (1, 0), fun _ _ _ => 1, fun _ => 0, fun _ _ => 1,
   fun _ => Except.ok ⟨0, 0, 0, 0⟩, none⟩

/-- C8 counterexample: at the concrete unrecognized native line-join value
7, the `line_join` getter returns the function-indicated failure, which is
not a type/enum conversion error of the taxonomy — refuting the claim that
an unrecognized line-join or line-cap value yields a type/enum conversion
error. -/
theorem line_join_error_variant_counterexample :
    line_join style_demo_bindings 0 =
      Except.error PdfiumError.PdfiumFunctionReturnValueIndicatedFailure ∧
    is_type_enum_conversion_error
      PdfiumError.PdfiumFunctionReturnValueIndicatedFailure = false :=
  ⟨rfl, rfl⟩

/-- C8 (amended): for every bindings outcome and handle, each getter is
characterized separately and universally: an unrecognized native line-join
or line-cap value makes the getter return the typed function-indicated
failure (a typed failure, never a silently defaulted style, though not the
conversion-error bucket of the taxonomy), a recognized value yields that
style; a successful native color read with any of the four channels
outside the 8-bit range yields the typed color conversion failure, which
is in the conversion-error bucket, and with all channels in range yields
the color. -/
theorem style_conversion_error_taxonomy (b : PdfiumLibraryBindings) (h : Nat) :
    (match PdfPageObjectLineJoin.from_pdfium (b.FPDFPageObj_GetLineJoin h) with
     | none =>
        line_join b h = Except.error PdfiumError.PdfiumFunctionReturnValueIndicatedFailure
     | some v => line_join b h = Except.ok v) ∧
    (match PdfPageObjectLineCap.from_pdfium (b.FPDFPageObj_GetLineCap h) with
     | none =>
        line_cap b h = Except.error PdfiumError.PdfiumFunctionReturnValueIndicatedFailure
     | some v => line_cap b h = Except.ok v) ∧
    (fill_color b h =
      if is_true (b.FPDFPageObj_GetFillColor h).1 then
        if (b.FPDFPageObj_GetFillColor h).2.1 < 256 ∧
            (b.FPDFPageObj_GetFillColor h).2.2.1 < 256 ∧
            (b.FPDFPageObj_GetFillColor h).2.2.2.1 < 256 ∧
            (b.FPDFPageObj_GetFillColor h).2.2.2.2 < 256 then
          Except.ok ⟨(b.FPDFPageObj_GetFillColor h).2.1,
            (b.FPDFPageObj_GetFillColor h).2.2.1,
            (b.FPDFPageObj_GetFillColor h).2.2.2.1,
            (b.FPDFPageObj_GetFillColor h).2.2.2.2⟩
        else Except.error PdfiumError.UnableToConvertPdfiumColorValueToRustu8
      else Except.error PdfiumError.PdfiumFunctionReturnValueIndicatedFailure) ∧
    (stroke_color b h =
      if is_true (b.FPDFPageObj_GetStrokeColor h).1 then
        if (b.FPDFPageObj_GetStrokeColor h).2.1 < 256 ∧
            (b.FPDFPageObj_GetStrokeColor h).2.2.1 < 256 ∧
            (b.FPDFPageObj_GetStrokeColor h).2.2.2.1 < 256 ∧
            (b.FPDFPageObj_GetStrokeColor h).2.2.2.2 < 256 then
          Except.ok ⟨(b.FPDFPageObj_GetStrokeColor h).2.1,
            (b.FPDFPageObj_GetStrokeColor h).2.2.1,
            (b.FPDFPageObj_GetStrokeColor h).2.2.2.1,
            (b.FPDFPageObj_GetStrokeColor h).2.2.2.2⟩
        else Except.error PdfiumError.UnableToConvertPdfiumColorValueToRustu8
      else Except.error PdfiumError.PdfiumFunctionReturnValueIndicatedFailure) ∧
    is_type_enum_conversion_error PdfiumError.UnableToConvertPdfiumColorValueToRustu8 = true ∧
    is_type_enum_conversion_error PdfiumError.PdfiumFunctionReturnValueIndicatedFailure = false := by
  refine ⟨?_, ?_, ?_, ?_, rfl, rfl⟩
  · cases hj : PdfPageObjectLineJoin.from_pdfium (b.FPDFPageObj_GetLineJoin h) <;>
      simp [line_join, hj]
  · cases hc : PdfPageObjectLineCap.from_pdfium (b.FPDFPageObj_GetLineCap h) <;>
      simp [line_cap, hc]
  · simp only [fill_color, u8_try_from]
    by_cases hb : is_true (b.FPDFPageObj_GetFillColor h).1
    · by_cases h1 : (b.FPDFPageObj_GetFillColor h).2.1 < 256 <;>
      by_cases h2 : (b.FPDFPageObj_GetFillColor h).2.2.1 < 256 <;>
      by_cases h3 : (b.FPDFPageObj_GetFillColor h).2.2.2.1 < 256 <;>
      by_cases h4 : (b.FPDFPageObj_GetFillColor h).2.2.2.2 < 256 <;>
      simp [hb, h1, h2, h3, h4]
    · simp [hb]
  · simp only [stroke_color, u8_try_from]
    by_cases hb : is_true (b.FPDFPageObj_GetStrokeColor h).1
    · by_cases h1 : (b.FPDFPageObj_GetStrokeColor h).2.1 < 256 <;>
      by_cases h2 : (b.FPDFPageObj_GetStrokeColor h).2.2.1 < 256 <;>
      by_cases h3 : (b.FPDFPageObj_GetStrokeColor h).2.2.2.1 < 256 <;>
      by_cases h4 : (b.FPDFPageObj_GetStrokeColor h).2.2.2.2 < 256 <;>
      simp [hb, h1, h2, h3, h4]
    · simp [hb]

/-- C10: the rectangle queries never propagate a bounds failure: whenever
the underlying bounds query fails they return false, and whenever it
succeeds they return exactly the geometric containment and overlap results
on the reported bounds. -/
theorem rect_queries_false_on_bounds_failure (b : PdfiumLibraryBindings)
    (obj : PdfPageObject) (rect : PdfRect) :
    match b.bounds_impl obj.get_object_handle with
    | Except.error _ =>
        is_inside_rect b obj rect = false ∧ does_overlap_rect b obj rect = false
    | Except.ok bounds =>
        is_inside_rect b obj rect = bounds.is_inside rect ∧
        does_overlap_rect b obj rect = bounds.does_overlap rect := by
  cases hb : b.bounds_impl obj.get_object_handle <;>
    simp [is_inside_rect, does_overlap_rect, hb]
